import Mathlib

/-!
Verification of the rustus storage abstraction (src/src/storages/mod.rs).

The source file declares the upload descriptor (`FileInfo`), the backend
selector (`AvailableStores` with its `FromStr` and `Display` forms), and the
`Storage` trait.  The concrete backends live outside the given sources, so the
trait operations are modelled from the specification and proved against that
model; the descriptor constructor and the selector parsing are translated
directly from the Rust source.

Machine integers (`usize`) are modelled as `Nat`; byte buffers as `List Nat`;
`HashMap<String, String>` as an association list; `DateTime<Utc>` as its epoch
value in seconds (`Int`), the precision at which the program serializes it.
-/

namespace Rustus

/-- Errors of the storage layer relevant to the modelled operations
(the spec's error taxonomy, section 7). -/
inductive RustusError where
  | NotFound
  | IntegrityError
deriving DecidableEq, Repr

/-- Enum of available Storage implementations
(`AvailableStores`, mod.rs lines 19-25). -/
inductive AvailableStores where
  | FileStorage
  | SqliteFileStorage
deriving DecidableEq, Repr

/-- `FromStr for AvailableStores` (mod.rs lines 27-42): the Rust `match` on
the input string, translated arm by arm. -/
def AvailableStores.from_str (input : String) : Except String AvailableStores :=
  if input = "file_storage" then Except.ok AvailableStores.FileStorage
  else if input = "sqlite_file_storage" then Except.ok AvailableStores.SqliteFileStorage
  else Except.error "Unknown storage type"

/-- The `Display` derive on `AvailableStores` (mod.rs lines 19-24):
`fmt = "FileStorage"` and `fmt = "SqliteFileStorage"`. -/
def AvailableStores.display : AvailableStores → String
  | AvailableStores.FileStorage => "FileStorage"
  | AvailableStores.SqliteFileStorage => "SqliteFileStorage"

/-- Upload descriptor (`FileInfo`, mod.rs lines 62-72).  `created_at` is the
epoch-seconds value of the `DateTime<Utc>` field; `metadata` is the
string-to-string map as an association list. -/
structure FileInfo where
  id : String
  offset : Nat
  length : Nat
  path : String
  created_at : Int
  deferred_size : Bool
  metadata : List (String × String)
deriving DecidableEq, Repr

/-- `FileInfo::new` (mod.rs lines 84-111).  The Rust code initialises
`length = 0`, `deferred_size = true` and overwrites both when `file_size` is
`Some`; `created_at` is the current time, passed here as the `now` argument. -/
def FileInfo.new (file_id : String) (file_size : Option Nat) (path : String)
    (initial_metadata : Option (List (String × String))) (now : Int) : FileInfo :=
  let id := file_id
  let lengthAndDeferred : Nat × Bool :=
    match file_size with
    | some size => (size, false)
    | none => (0, true)
  let metadata :=
    match initial_metadata with
    | some meta => meta
    | none => []
  { id := id
    path := path
    length := lengthAndDeferred.1
    metadata := metadata
    deferred_size := lengthAndDeferred.2
    offset := 0
    created_at := now }

/-- Modelled from the spec: the state of one storage backend.  The concrete
backends (`file_storage`, `sqlite_file_storage`) are not part of the given
sources; the spec describes them as a keyed store holding, per upload id, the
persisted descriptor and the backing bytes. -/
def StorageState : Type := String → Option (FileInfo × List Nat)

/-- The empty backend state: no upload is stored. -/
def Storage.emptyState : StorageState := fun _ => none

/-- Replace (or insert) the entry stored under key `k`. -/
def StorageState.store (s : StorageState) (k : String) (v : FileInfo × List Nat) :
    StorageState :=
  fun q => if q = k then some v else s q

/-- Modelled from the spec: `Storage::get_file_info` (declared at mod.rs
lines 123-129; body not in the given sources).  Fails with NotFound if the id
is unknown; no side effects. -/
def Storage.get_file_info (s : StorageState) (file_id : String) :
    Except RustusError FileInfo :=
  match s file_id with
  | some (info, _) => Except.ok info
  | none => Except.error RustusError.NotFound

/-- Modelled from the spec: `Storage::set_file_info` (declared at mod.rs
lines 131-137; body not in the given sources).  Overwrites the persisted
descriptor for its id; fails with NotFound if the id does not exist. -/
def Storage.set_file_info (s : StorageState) (file_info : FileInfo) :
    StorageState × Except RustusError Unit :=
  match s file_info.id with
  | some (_, data) => (s.store file_info.id (file_info, data), Except.ok ())
  | none => (s, Except.error RustusError.NotFound)

/-- Modelled from the spec: `Storage::get_contents` (declared at mod.rs
lines 139-146; body not in the given sources).  Fails with NotFound if the id
is unknown; returns the bytes written so far. -/
def Storage.get_contents (s : StorageState) (file_id : String) :
    Except RustusError (List Nat) :=
  match s file_id with
  | some (_, data) => Except.ok data
  | none => Except.error RustusError.NotFound

/-- Modelled from the spec: `Storage::add_bytes` (declared at mod.rs
lines 157-162; body not in the given sources).  Strict append-only contract:
IntegrityError when `request_offset` differs from the stored offset or when a
write would exceed a known length; otherwise the bytes are appended and the
stored offset advances by their count, which is returned. -/
def Storage.add_bytes (s : StorageState) (file_id : String) (request_offset : Nat)
    (bytes : List Nat) : StorageState × Except RustusError Nat :=
  match s file_id with
  | none => (s, Except.error RustusError.NotFound)
  | some (info, data) =>
    if request_offset = info.offset then
      if info.deferred_size = false ∧ info.length < info.offset + bytes.length then
        (s, Except.error RustusError.IntegrityError)
      else
        (s.store file_id
          ({ info with offset := info.offset + bytes.length }, data ++ bytes),
         Except.ok (info.offset + bytes.length))
    else (s, Except.error RustusError.IntegrityError)

/-- Modelled from the spec: `Storage::create_file` (declared at mod.rs
lines 171-175; body not in the given sources).  The generated identifier,
backend path and creation instant are passed explicitly (`new_id`, `path`,
`now`); the spec leaves the generation scheme to the backend.  A fresh
descriptor with offset 0 and an empty backing object are stored and the new id
is returned. -/
def Storage.create_file (s : StorageState) (file_size : Option Nat)
    (metadata : Option (List (String × String))) (new_id : String) (path : String)
    (now : Int) : StorageState × Except RustusError String :=
  let info := FileInfo.new new_id file_size path metadata now
  (s.store new_id (info, []), Except.ok new_id)

/-- Modelled from the spec: `Storage::remove_file` (declared at mod.rs
lines 177-184; body not in the given sources).  Deletes descriptor and
backing bytes; fails with NotFound if the id is already absent. -/
def Storage.remove_file (s : StorageState) (file_id : String) :
    StorageState × Except RustusError Unit :=
  match s file_id with
  | some _ => (fun q => if q = file_id then none else s q, Except.ok ())
  | none => (s, Except.error RustusError.NotFound)

/-- Drive `add_bytes` over a list of chunks strictly in order: each call uses
the offset returned by the previous one, stopping at the first error. -/
def Storage.runChunks (s : StorageState) (file_id : String) (off : Nat) :
    List (List Nat) → StorageState × Except RustusError Nat
  | [] => (s, Except.ok off)
  | c :: cs =>
    match Storage.add_bytes s file_id off c with
    | (s2, Except.ok off2) => Storage.runChunks s2 file_id off2 cs
    | (s2, Except.error e) => (s2, Except.error e)

/-- A self-describing serialized value: the shape the serde derive on
`FileInfo` (mod.rs lines 62-72) produces, one field map with string, integer
and boolean leaves. -/
inductive SerialValue where
  | str : String → SerialValue
  | num : Int → SerialValue
  | boolean : Bool → SerialValue
  | obj : List (String × SerialValue) → SerialValue
deriving Repr

/-- Modelled from the spec: the serializer the serde derive on `FileInfo`
generates (the derive is on mod.rs lines 62-72; the generated body is not in
the given sources).  Every field is emitted under its own name; `created_at`
via the `ts_seconds` attribute as its integer epoch-seconds value; `metadata`
as a nested map of string values. -/
def FileInfo.serialize (f : FileInfo) : SerialValue :=
  SerialValue.obj
    [("id", SerialValue.str f.id),
     ("offset", SerialValue.num (Int.ofNat f.offset)),
     ("length", SerialValue.num (Int.ofNat f.length)),
     ("path", SerialValue.str f.path),
     ("created_at", SerialValue.num f.created_at),
     ("deferred_size", SerialValue.boolean f.deferred_size),
     ("metadata", SerialValue.obj (f.metadata.map fun p => (p.1, SerialValue.str p.2)))]

/-- Look a field up by name in a serialized map. -/
def SerialValue.lookupField : List (String × SerialValue) → String → Option SerialValue
  | [], _ => none
  | (k, v) :: rest, key => if k = key then some v else SerialValue.lookupField rest key

/-- Decode a serialized metadata map back into an association list; fails on
any non-string value. -/
def decodeMetadata : List (String × SerialValue) → Option (List (String × String))
  | [] => some []
  | (k, SerialValue.str v) :: rest => (decodeMetadata rest).map fun r => (k, v) :: r
  | _ => none

/-- Modelled from the spec: the deserializer the serde derive on `FileInfo`
generates (the derive is on mod.rs lines 62-72; the generated body is not in
the given sources).  Fields are looked up by name; `offset` and `length` must
be non-negative integers (`usize`); `created_at` is read back from its integer
epoch-seconds value. -/
def FileInfo.deserialize (v : SerialValue) : Option FileInfo :=
  match v with
  | SerialValue.obj fields =>
    match SerialValue.lookupField fields "id",
          SerialValue.lookupField fields "offset",
          SerialValue.lookupField fields "length",
          SerialValue.lookupField fields "path",
          SerialValue.lookupField fields "created_at",
          SerialValue.lookupField fields "deferred_size",
          SerialValue.lookupField fields "metadata" with
    | some (SerialValue.str id), some (SerialValue.num (Int.ofNat off)),
      some (SerialValue.num (Int.ofNat len)), some (SerialValue.str path),
      some (SerialValue.num created), some (SerialValue.boolean dsz),
      some (SerialValue.obj metaFields) =>
      (decodeMetadata metaFields).map fun md =>
        { id := id
          offset := off
          length := len
          path := path
          created_at := created
          deferred_size := dsz
          metadata := md }
    | _, _, _, _, _, _, _ => none
  | _ => none

/-- The descriptor size invariant of the spec (section 3): `offset ≤ length`
whenever `deferred_size` is false. -/
def FileInfo.sizeInv (info : FileInfo) : Prop :=
  info.deferred_size = false → info.offset ≤ info.length

/-- The size invariant, lifted to every descriptor stored in a backend
state. -/
def StorageInv (s : StorageState) : Prop :=
  ∀ file_id info data, s file_id = some (info, data) → info.sizeInv

theorem StorageState.store_self (s : StorageState) (k : String) (v : FileInfo × List Nat) :
    s.store k v k = some v := by
  simp [StorageState.store]

theorem StorageState.store_other (s : StorageState) (k q : String) (v : FileInfo × List Nat)
    (h : q ≠ k) : s.store k v q = s q := by
  simp [StorageState.store, h]

/-- C9: creating a descriptor with no declared size sets `length` to the
concrete value 0 (not an absent or sentinel value) and `deferred_size` to
true. -/
theorem deferred_creation_length_zero (file_id path : String)
    (meta : Option (List (String × String))) (now : Int) :
    (FileInfo.new file_id none path meta now).length = 0 ∧
    (FileInfo.new file_id none path meta now).deferred_size = true := by
  exact ⟨rfl, rfl⟩

/-- C6: backend-selection parsing succeeds exactly on the closed token set:
`from_str` maps "file_storage" to `FileStorage`, "sqlite_file_storage" to
`SqliteFileStorage`, and every other input string to an error. -/
theorem from_str_closed_set :
    AvailableStores.from_str "file_storage" = Except.ok AvailableStores.FileStorage ∧
    AvailableStores.from_str "sqlite_file_storage"
      = Except.ok AvailableStores.SqliteFileStorage ∧
    ∀ input : String, input ≠ "file_storage" → input ≠ "sqlite_file_storage" →
      AvailableStores.from_str input = Except.error "Unknown storage type" := by
  refine ⟨rfl, rfl, ?_⟩
  intro input h1 h2
  simp [AvailableStores.from_str, h1, h2]

/-- Witness for C6: the parser accepts "file_storage" and rejects a concrete
unrecognized token. -/
theorem from_str_closed_set_witness :
    AvailableStores.from_str "file_storage" = Except.ok AvailableStores.FileStorage ∧
    AvailableStores.from_str "bogus" = Except.error "Unknown storage type" :=
  ⟨from_str_closed_set.1, from_str_closed_set.2.2 "bogus" (by decide) (by decide)⟩

/-- C10: the configuration parser and the display form do not round-trip: for
every variant, feeding its `Display` rendering back through `from_str` yields
an error, because `Display` renders "FileStorage"/"SqliteFileStorage" while
`from_str` accepts only "file_storage"/"sqlite_file_storage". -/
theorem display_from_str_no_roundtrip (v : AvailableStores) :
    AvailableStores.from_str v.display = Except.error "Unknown storage type" := by
  cases v <;> rfl

/-- C3: `create_file(s, m)` returns the new id, and reading the descriptor
straight back yields offset 0, `deferred_size = s.isNone`, length equal to
`s` when `s` is some, and the metadata map verbatim. -/
theorem create_file_initial_info (s : StorageState) (file_size : Option Nat)
    (m : List (String × String)) (new_id path : String) (now : Int) :
    (Storage.create_file s file_size (some m) new_id path now).2 = Except.ok new_id ∧
    Storage.get_file_info (Storage.create_file s file_size (some m) new_id path now).1 new_id
      = Except.ok (FileInfo.new new_id file_size path (some m) now) ∧
    (FileInfo.new new_id file_size path (some m) now).offset = 0 ∧
    (FileInfo.new new_id file_size path (some m) now).deferred_size = file_size.isNone ∧
    (∀ n, file_size = some n → (FileInfo.new new_id file_size path (some m) now).length = n) ∧
    (FileInfo.new new_id file_size path (some m) now).metadata = m := by
  refine ⟨rfl, ?_, rfl, ?_, ?_, rfl⟩
  · simp [Storage.create_file, Storage.get_file_info, StorageState.store]
  · cases file_size <;> rfl
  · intro n hn
    subst hn
    rfl

/-- Witness for C3: the spec's concrete example, `create_file(size=100,
metadata=[("k","v")])` immediately read back. -/
theorem create_file_initial_info_witness :
    Storage.get_file_info
        (Storage.create_file Storage.emptyState (some 100) (some [("k", "v")]) "a" "p" 0).1 "a"
      = Except.ok (FileInfo.new "a" (some 100) "p" (some [("k", "v")]) 0) ∧
    (FileInfo.new "a" (some 100) "p" (some [("k", "v")]) 0).offset = 0 ∧
    (FileInfo.new "a" (some 100) "p" (some [("k", "v")]) 0).deferred_size = false ∧
    (FileInfo.new "a" (some 100) "p" (some [("k", "v")]) 0).length = 100 ∧
    (FileInfo.new "a" (some 100) "p" (some [("k", "v")]) 0).metadata = [("k", "v")] :=
  ⟨(create_file_initial_info Storage.emptyState (some 100) [("k", "v")] "a" "p" 0).2.1,
   (create_file_initial_info Storage.emptyState (some 100) [("k", "v")] "a" "p" 0).2.2.1,
   (create_file_initial_info Storage.emptyState (some 100) [("k", "v")] "a" "p" 0).2.2.2.1,
   (create_file_initial_info Storage.emptyState (some 100) [("k", "v")] "a" "p" 0).2.2.2.2.1
     100 rfl,
   (create_file_initial_info Storage.emptyState (some 100) [("k", "v")] "a" "p" 0).2.2.2.2.2⟩

/-- C2: `add_bytes` with a request offset different from the stored offset
fails with IntegrityError and returns the state completely unchanged, so the
stored descriptor (offset included) and the stored bytes are untouched. -/
theorem add_bytes_wrong_offset (s : StorageState) (file_id : String) (info : FileInfo)
    (data : List Nat) (h : s file_id = some (info, data)) (request_offset : Nat)
    (bytes : List Nat) (hoff : request_offset ≠ info.offset) :
    Storage.add_bytes s file_id request_offset bytes
      = (s, Except.error RustusError.IntegrityError) := by
  simp [Storage.add_bytes, h, hoff]

/-- Witness for C2: on a freshly created upload (stored offset 0), submitting
at request offset 3 is rejected and the state is returned unchanged. -/
theorem add_bytes_wrong_offset_witness :
    Storage.add_bytes (Storage.create_file Storage.emptyState (some 5) none "a" "p" 0).1
        "a" 3 [7]
      = ((Storage.create_file Storage.emptyState (some 5) none "a" "p" 0).1,
         Except.error RustusError.IntegrityError) :=
  add_bytes_wrong_offset (Storage.create_file Storage.emptyState (some 5) none "a" "p" 0).1
    "a" (FileInfo.new "a" (some 5) "p" none 0) [] (by decide) 3 [7] (by decide)

/-- C5: for a descriptor whose id exists in the backend, `set_file_info(d)`
followed by `get_file_info(d.id)` returns a descriptor field-wise equal to
`d`. -/
theorem set_get_file_info (s : StorageState) (d : FileInfo) (info0 : FileInfo)
    (data0 : List Nat) (h : s d.id = some (info0, data0)) :
    Storage.get_file_info (Storage.set_file_info s d).1 d.id = Except.ok d := by
  simp [Storage.set_file_info, h, Storage.get_file_info, StorageState.store]

/-- Witness for C5: overwrite a freshly created upload's descriptor and read
it back. -/
theorem set_get_file_info_witness :
    Storage.get_file_info
        (Storage.set_file_info (Storage.create_file Storage.emptyState (some 5) none "a" "p" 0).1
          (FileInfo.new "a" (some 9) "p2" (some [("x", "y")]) 7)).1
        (FileInfo.new "a" (some 9) "p2" (some [("x", "y")]) 7).id
      = Except.ok (FileInfo.new "a" (some 9) "p2" (some [("x", "y")]) 7) :=
  set_get_file_info (Storage.create_file Storage.emptyState (some 5) none "a" "p" 0).1
    (FileInfo.new "a" (some 9) "p2" (some [("x", "y")]) 7)
    (FileInfo.new "a" (some 5) "p" none 0) [] (by decide)

/-- C4: after `remove_file(id)` succeeds, `get_file_info(id)` and
`add_bytes(id, 0, bytes)` both fail with NotFound, and the id remains absent
from the state, so no operation on it makes further progress. -/
theorem remove_file_not_found (s : StorageState) (file_id : String) (info0 : FileInfo)
    (data0 : List Nat) (h : s file_id = some (info0, data0)) (bytes : List Nat) :
    (Storage.remove_file s file_id).2 = Except.ok () ∧
    Storage.get_file_info (Storage.remove_file s file_id).1 file_id
      = Except.error RustusError.NotFound ∧
    (Storage.add_bytes (Storage.remove_file s file_id).1 file_id 0 bytes).2
      = Except.error RustusError.NotFound ∧
    (Storage.add_bytes (Storage.remove_file s file_id).1 file_id 0 bytes).1 file_id
      = none := by
  refine ⟨?_, ?_, ?_, ?_⟩ <;>
    simp [Storage.remove_file, h, Storage.get_file_info, Storage.add_bytes]

/-- Witness for C4: create an upload, remove it, and observe NotFound on both
subsequent operations. -/
theorem remove_file_not_found_witness :
    (Storage.remove_file (Storage.create_file Storage.emptyState (some 5) none "a" "p" 0).1
        "a").2 = Except.ok () ∧
    Storage.get_file_info
        (Storage.remove_file (Storage.create_file Storage.emptyState (some 5) none "a" "p" 0).1
          "a").1 "a"
      = Except.error RustusError.NotFound ∧
    (Storage.add_bytes
        (Storage.remove_file (Storage.create_file Storage.emptyState (some 5) none "a" "p" 0).1
          "a").1 "a" 0 [1]).2
      = Except.error RustusError.NotFound ∧
    (Storage.add_bytes
        (Storage.remove_file (Storage.create_file Storage.emptyState (some 5) none "a" "p" 0).1
          "a").1 "a" 0 [1]).1 "a"
      = none :=
  remove_file_not_found (Storage.create_file Storage.emptyState (some 5) none "a" "p" 0).1
    "a" (FileInfo.new "a" (some 5) "p" none 0) [] (by decide) [1]

theorem decodeMetadata_map (md : List (String × String)) :
    decodeMetadata (md.map fun p => (p.1, SerialValue.str p.2)) = some md := by
  induction md with
  | nil => rfl
  | cons p rest ih =>
    obtain ⟨k, v⟩ := p
    simp [decodeMetadata, ih]

/-- C8: serializing a descriptor and deserializing it back is lossless for
every field; `created_at` is encoded as its integer epoch-seconds value, so
it round-trips exactly at second precision. -/
theorem serialize_roundtrip (f : FileInfo) :
    FileInfo.deserialize f.serialize = some f := by
  obtain ⟨id, off, len, path, created, dsz, md⟩ := f
  simp [FileInfo.serialize, FileInfo.deserialize, SerialValue.lookupField,
    decodeMetadata_map]

theorem runChunks_spec (chunks : List (List Nat)) :
    ∀ (s : StorageState) (file_id : String) (info : FileInfo) (data : List Nat),
      s file_id = some (info, data) →
      info.offset = data.length →
      (info.deferred_size = false → data.length + chunks.flatten.length ≤ info.length) →
      (Storage.runChunks s file_id info.offset chunks).2
          = Except.ok (data.length + chunks.flatten.length) ∧
      Storage.get_contents (Storage.runChunks s file_id info.offset chunks).1 file_id
          = Except.ok (data ++ chunks.flatten) := by
  induction chunks with
  | nil =>
    intro s file_id info data h hoff _
    simp [Storage.runChunks, hoff, Storage.get_contents, h]
  | cons c cs ih =>
    intro s file_id info data h hoff hlen
    have hguard : ¬ (info.deferred_size = false ∧
        info.length < info.offset + c.length) := by
      rintro ⟨hd, hlt⟩
      have h1 := hlen hd
      rw [List.flatten_cons, List.length_append] at h1
      rw [hoff] at hlt
      omega
    have hstep : Storage.add_bytes s file_id info.offset c
        = (s.store file_id ({ info with offset := info.offset + c.length }, data ++ c),
           Except.ok (info.offset + c.length)) := by
      simp [Storage.add_bytes, h, hguard]
    have hrun : Storage.runChunks s file_id info.offset (c :: cs)
        = Storage.runChunks
            (s.store file_id ({ info with offset := info.offset + c.length }, data ++ c))
            file_id (info.offset + c.length) cs := by
      simp [Storage.runChunks, hstep]
    have hnext := ih
      (s.store file_id ({ info with offset := info.offset + c.length }, data ++ c))
      file_id ({ info with offset := info.offset + c.length }) (data ++ c)
      (StorageState.store_self _ _ _)
      (by simp [hoff])
      (by
        intro hd
        have h1 := hlen hd
        rw [List.flatten_cons, List.length_append] at h1
        dsimp only
        simp only [List.length_append]
        omega)
    rw [hrun]
    obtain ⟨h2, h3⟩ := hnext
    dsimp only at h2 h3
    constructor
    · rw [h2]
      rw [List.flatten_cons]
      simp [List.length_append]
      omega
    · rw [h3]
      rw [List.flatten_cons, List.append_assoc]

/-- C1: splitting any byte sequence into non-empty chunks and submitting them
via `add_bytes` strictly in order from offset 0 (each call using the offset
returned by the previous one) succeeds, the final returned offset equals the
total length, and `get_contents` returns exactly the original sequence; the
upload may have been created with a deferred size or with the total length
declared. -/
theorem sequential_upload_reconstructs (s0 : StorageState) (file_id path : String)
    (meta : Option (List (String × String))) (now : Int) (file_size : Option Nat)
    (chunks : List (List Nat))
    (hchunks : ∀ c ∈ chunks, c ≠ [])
    (hsize : file_size = none ∨ file_size = some chunks.flatten.length) :
    (Storage.runChunks (Storage.create_file s0 file_size meta file_id path now).1
        file_id 0 chunks).2 = Except.ok chunks.flatten.length ∧
    Storage.get_contents
        (Storage.runChunks (Storage.create_file s0 file_size meta file_id path now).1
          file_id 0 chunks).1 file_id = Except.ok chunks.flatten := by
  have h := runChunks_spec chunks
    (Storage.create_file s0 file_size meta file_id path now).1 file_id
    (FileInfo.new file_id file_size path meta now) []
    (by simp [Storage.create_file, StorageState.store])
    rfl
    (by
      intro hd
      rcases hsize with hnone | hsome
      · subst hnone
        simp [FileInfo.new] at hd
      · subst hsome
        simp [FileInfo.new])
  simpa using h

/-- Witness for C1: the bytes 1,2,3 split into the non-empty chunks
[1,2] and [3], uploaded into a deferred-size file. -/
theorem sequential_upload_reconstructs_witness :
    (Storage.runChunks (Storage.create_file Storage.emptyState none none "a" "p" 0).1
        "a" 0 [[1, 2], [3]]).2 = Except.ok 3 ∧
    Storage.get_contents
        (Storage.runChunks (Storage.create_file Storage.emptyState none none "a" "p" 0).1
          "a" 0 [[1, 2], [3]]).1 "a" = Except.ok [1, 2, 3] :=
  sequential_upload_reconstructs Storage.emptyState "a" "p" none 0 none [[1, 2], [3]]
    (by decide) (Or.inl rfl)

/-- A descriptor violating the size invariant: offset 5 beyond length 3 with
a resolved (non-deferred) size. -/
def badInfo : FileInfo :=
  { id := "a"
    offset := 5
    length := 3
    path := "p"
    created_at := 0
    deferred_size := false
    metadata := [] }

theorem storageInv_empty : StorageInv Storage.emptyState := by
  intro file_id info data h
  simp [Storage.emptyState] at h

theorem storageInv_store (s : StorageState) (k : String) (info : FileInfo)
    (data : List Nat) (hs : StorageInv s) (hinfo : info.sizeInv) :
    StorageInv (s.store k (info, data)) := by
  intro q i d hq
  rcases eq_or_ne q k with hk | hk
  · subst hk
    rw [StorageState.store_self] at hq
    simp only [Option.some.injEq, Prod.mk.injEq] at hq
    obtain ⟨h1, h2⟩ := hq
    subst h1
    exact hinfo
  · rw [StorageState.store_other s k q _ hk] at hq
    exact hs q i d hq

/-- Counterexample for C7: starting from a state that satisfies the size
invariant, `set_file_info` succeeds on a descriptor with offset 5 and length 3
(deferred_size false) and stores it verbatim, so the invariant is not
preserved by every operation. -/
theorem set_file_info_breaks_size_invariant :
    StorageInv (Storage.create_file Storage.emptyState (some 3) none "a" "p" 0).1 ∧
    (Storage.set_file_info (Storage.create_file Storage.emptyState (some 3) none "a" "p" 0).1
        badInfo).2 = Except.ok () ∧
    ¬ StorageInv (Storage.set_file_info
        (Storage.create_file Storage.emptyState (some 3) none "a" "p" 0).1 badInfo).1 := by
  refine ⟨?_, rfl, ?_⟩
  · intro file_id info data h
    simp only [Storage.create_file, StorageState.store, Storage.emptyState] at h
    by_cases hq : file_id = "a"
    · rw [if_pos hq] at h
      simp only [Option.some.injEq, Prod.mk.injEq] at h
      obtain ⟨h1, _⟩ := h
      subst h1
      intro _
      decide
    · rw [if_neg hq] at h
      exact absurd h (by simp)
  · intro hInv
    have hmem : (Storage.set_file_info
        (Storage.create_file Storage.emptyState (some 3) none "a" "p" 0).1 badInfo).1 "a"
        = some (badInfo, []) := by decide
    have := hInv "a" badInfo [] hmem rfl
    exact absurd this (by decide)

/-- C7 (amended): the size invariant `offset ≤ length` (when `deferred_size`
is false) is established by the constructor `FileInfo.new`, preserved by
`add_bytes` from any state satisfying it, and preserved by `set_file_info`
provided the supplied descriptor itself satisfies it; `set_file_info` with a
violating descriptor stores it verbatim. -/
theorem size_invariant_amended :
    (∀ (file_id : String) (file_size : Option Nat) (path : String)
        (meta : Option (List (String × String))) (now : Int),
        (FileInfo.new file_id file_size path meta now).sizeInv) ∧
    (∀ (s : StorageState) (file_id : String) (request_offset : Nat) (bytes : List Nat),
        StorageInv s → StorageInv (Storage.add_bytes s file_id request_offset bytes).1) ∧
    (∀ (s : StorageState) (d : FileInfo),
        StorageInv s → d.sizeInv → StorageInv (Storage.set_file_info s d).1) := by
  refine ⟨?_, ?_, ?_⟩
  · intro file_id file_size path meta now
    cases file_size <;> simp [FileInfo.new, FileInfo.sizeInv]
  · intro s file_id request_offset bytes hs
    unfold Storage.add_bytes
    split
    · exact hs
    · rename_i info data heq
      split
      · split
        · exact hs
        · rename_i hoff hguard
          refine storageInv_store s file_id _ _ hs ?_
          intro hd
          have hle : info.length ≥ info.offset + bytes.length := by
            rcases Nat.lt_or_ge info.length (info.offset + bytes.length) with hlt | hge
            · exact absurd ⟨hd, hlt⟩ hguard
            · exact hge
          exact hle
      · exact hs
  · intro s d hs hd
    unfold Storage.set_file_info
    split
    · exact storageInv_store s d.id d _ hs hd
    · exact hs

/-- Witness for C7 (amended): a concrete constructed descriptor satisfies the
invariant, and `add_bytes`/`set_file_info` from the empty state preserve it. -/
theorem size_invariant_amended_witness :
    (FileInfo.new "a" (some 3) "p" none 0).sizeInv ∧
    StorageInv (Storage.add_bytes Storage.emptyState "a" 0 [1]).1 ∧
    StorageInv (Storage.set_file_info Storage.emptyState
        (FileInfo.new "a" (some 3) "p" none 0)).1 :=
  ⟨size_invariant_amended.1 "a" (some 3) "p" none 0,
   size_invariant_amended.2.1 Storage.emptyState "a" 0 [1] storageInv_empty,
   size_invariant_amended.2.2 Storage.emptyState (FileInfo.new "a" (some 3) "p" none 0)
     storageInv_empty (size_invariant_amended.1 "a" (some 3) "p" none 0)⟩

end Rustus
